import Mathlib

/-!
Verification of the session pool and execution engine of
`terminal-mcp-server` (`src/executor.ts`, class `CommandExecutor`).

The TypeScript class is embedded shallowly as pure functions over an
explicit `ExecutorState` (the `sessions` map plus counters that stand for
the allocation of fresh `setTimeout` handles and fresh `ssh2` `Client`
objects).  Every interaction with the outside world — the SSH config
lookup, `fs.readFileSync` of the private key, the outcome of each
`client.connect` attempt, the liveness probe, the `listenerCount`
bookkeeping of the stored client, the remote command channel and the local
`child_process.exec` — is supplied by an oracle record, and every
externally visible action (key reads, connection attempts, retry delays,
timer starts/clears, transport closes, command spawns) is recorded in an
event trace, so that claims about "no new connection attempt", "no retry
delay consumed" or "timer cleared before close" become statements about
the trace.
-/

/-- An environment object (`Record<string, string>`), as an association
list with unique keys; `{...a, ...b}` is `jsSpread a b`. -/
abbrev EnvMap := List (String × String)

/-- `Map.get` / plain key lookup (first entry with the key). -/
def mapGet {α : Type} : List (String × α) → String → Option α
  | [], _ => none
  | p :: rest, k => if p.1 = k then some p.2 else mapGet rest k

/-- `Map.set`: replace the entry for the key, or append a new one. -/
def mapSet {α : Type} : List (String × α) → String → α → List (String × α)
  | [], k, v => [(k, v)]
  | p :: rest, k, v => if p.1 = k then (k, v) :: rest else p :: mapSet rest k v

/-- `Map.delete`: drop the entry for the key. -/
def mapDelete {α : Type} : List (String × α) → String → List (String × α)
  | [], _ => []
  | p :: rest, k => if p.1 = k then rest else p :: mapDelete rest k

/-- JavaScript `a || b` for an optional string (`undefined` and `""` are
falsy). -/
def jsOrStr (a : Option String) (b : String) : String :=
  match a with
  | none => b
  | some s => if s = "" then b else s

/-- JavaScript `a || b` for two strings (`""` is falsy). -/
def jsStrOr (a b : String) : String := if a = "" then b else a

/-- JavaScript spread `{...a, ...b}`: entries of `b` override entries of
`a`.  Key lookup agrees with the JS object; the (unobservable) key order
is not preserved. -/
def jsSpread (a b : EnvMap) : EnvMap :=
  b ++ a.filter (fun p => (mapGet b p.1).isNone)

/-- One entry of `CommandExecutor.sessions`: `client` is the identity of
the `ssh2` `Client` (none for local sessions), `hasConnection` whether the
`connection` promise field is non-null, `timeout` the pending idle-timer
handle, `host` the resolved remote host, `env` the accumulated local
environment overlay. -/
structure Session where
  clientId : Option Nat
  hasConnection : Bool
  timeout : Option Nat
  host : Option String := none
  env : Option EnvMap := none
  deriving Repr, DecidableEq

/-- The mutable state of a `CommandExecutor`: the `sessions` map plus
fresh-handle counters for `setTimeout` ids and `new Client()` identities. -/
structure ExecutorState where
  sessions : List (String × Session)
  nextTimerId : Nat := 0
  nextClientId : Nat := 0
  deriving Repr, DecidableEq

/-- Externally visible actions of the executor, in program order. -/
inductive Event where
  | readKey (path : String)
  | connAttempt (host : String) (clientId : Nat)
  | delay (ms : Nat)
  | clearTimer (key : String) (timerId : Nat)
  | startTimer (key : String) (ms : Nat)
  | closeTransport (key : String) (clientId : Nat)
  | probe (clientId : Nat)
  | execCmd (clientId : Nat) (cmd : String)
  | spawnLocal (cmd : String) (envVars : EnvMap) (cwd : Option String)
  deriving Repr, DecidableEq

/-- `private sessionTimeout: number = 20 * 60 * 1000`. -/
def sessionTimeoutMs : Nat := 20 * 60 * 1000

/-- `private maxRetries: number = 3`. -/
def maxRetries : Nat := 3

/-- `private retryDelayMs: number = 2000`. -/
def retryDelayMs : Nat := 2000

/-- `path.join(os.homedir(), '.ssh', 'id_rsa')` — the home directory is
external, so the default key path is kept symbolic. -/
def defaultKeyPath : String := "~/.ssh/id_rsa"

/-- `getSessionKey(host)`: `` `${host || 'local'}` `` — `undefined` and
`""` are both falsy. -/
def getSessionKey (host : Option String) : String :=
  match host with
  | none => "local"
  | some h => if h = "" then "local" else h

/-- `resetTimeout(sessionKey)`: clear any pending timer of the stored
session and start a fresh `sessionTimeout` timer; a no-op when no session
is stored under the key. -/
def resetTimeout (st : ExecutorState) (sessionKey : String) :
    ExecutorState × List Event :=
  match mapGet st.sessions sessionKey with
  | none => (st, [])
  | some s =>
    let clearEvs : List Event :=
      match s.timeout with
      | some t => [Event.clearTimer sessionKey t]
      | none => []
    let tid := st.nextTimerId
    ({ st with
        sessions := mapSet st.sessions sessionKey { s with timeout := some tid },
        nextTimerId := tid + 1 },
     clearEvs ++ [Event.startTimer sessionKey sessionTimeoutMs])

/-- `disconnectSession(sessionKey)`: `client.end()` first (when a client
exists), then `clearTimeout` (when a timer is pending), then delete the
entry. -/
def disconnectSession (st : ExecutorState) (sessionKey : String) :
    ExecutorState × List Event :=
  match mapGet st.sessions sessionKey with
  | none => (st, [])
  | some s =>
    let closeEvs : List Event :=
      match s.clientId with
      | some c => [Event.closeTransport sessionKey c]
      | none => []
    let clearEvs : List Event :=
      match s.timeout with
      | some t => [Event.clearTimer sessionKey t]
      | none => []
    ({ st with sessions := mapDelete st.sessions sessionKey },
     closeEvs ++ clearEvs)

/-- The connection record `parseSshConfig` extracts from `~/.ssh/config`
for an alias (empty record on a missing/unreadable file or no matching
`Host` block). -/
structure SshConfigRec where
  hostname : Option String := none
  user : Option String := none
  identityFile : Option String := none
  passphrase : Option String := none
  port : Option Nat := none
  deriving Repr, DecidableEq

/-- Outcome of one `fs.readFileSync(privateKeyPath)`, classified the way
`connect` classifies the thrown error (`ENOENT`, an "unsupported format" /
"Cannot parse privateKey" message, or anything else). -/
inductive KeyReadResult where
  | ok
  | enoent
  | unsupported (msg : String)
  | other (msg : String)
  deriving Repr, DecidableEq

/-- The error message `connect` throws for a failed key read, per its
three branches (none when the read succeeds). -/
def keyErrMsg (path : String) : KeyReadResult → Option String
  | .ok => none
  | .enoent =>
    some ("SSH key file (" ++ path ++
      ") does not exist. Please ensure SSH key-based authentication is set up.")
  | .unsupported m =>
    some ("Unsupported SSH key format for key at " ++ path ++ ": " ++ m ++
      ". If your key is encrypted, ensure \"passphrase\" is provided in your SSH config or the key is not encrypted.")
  | .other m =>
    some ("Failed to read SSH private key from " ++ path ++ ": " ++ m)

/-- External inputs of one `connect` call: the resolved SSH config, the
per-attempt key-read and connection outcomes (`connResult i = none` means
attempt `i` reached `ready`; `some msg` means the `error` event fired with
that message), and whether the stored client still reports `ready`/`data`
listeners (`listenerCount(...) > 0`) at the reuse check. -/
structure ConnectOracle where
  cfg : SshConfigRec
  keyRead : Nat → KeyReadResult
  connResult : Nat → Option String
  listeners : Bool

/-- The retry loop of `connect` (`for (let i = 0; i < this.maxRetries; i++)`),
with `fuel + 1` attempts remaining and `i` the current index.  Each
iteration re-reads the key (a read error is thrown out of the loop,
unretried), allocates a fresh `Client`, and attempts the connection.  On
`ready` the handler calls `resetTimeout` — before the session is installed
— and only then is the session stored, with `timeout: null`.  A failed
attempt sleeps `retryDelayMs` unless it was the last, which rethrows. -/
def connectLoop (o : ConnectOracle) (sessionKey actualHost privateKeyPath : String) :
    ExecutorState → Nat → Nat → Except String Unit × ExecutorState × List Event
  | st, _, 0 =>
    -- the for-loop falls through (cannot occur with a positive retry budget):
    -- `connect` resolves without installing a session
    (.ok (), st, [])
  | st, i, fuel + 1 =>
    match keyErrMsg privateKeyPath (o.keyRead i) with
    | some msg => (.error msg, st, [Event.readKey privateKeyPath])
    | none =>
      let cid := st.nextClientId
      let st1 := { st with nextClientId := cid + 1 }
      let evA := [Event.readKey privateKeyPath, Event.connAttempt actualHost cid]
      match o.connResult i with
      | none =>
        let p := resetTimeout st1 sessionKey
        let s : Session :=
          { clientId := some cid, hasConnection := true, timeout := none,
            host := some actualHost, env := none }
        (.ok (),
         { p.1 with sessions := mapSet p.1.sessions sessionKey s },
         evA ++ p.2)
      | some msg =>
        match fuel with
        | 0 => (.error msg, st1, evA)
        | fuel' + 1 =>
          let r := connectLoop o sessionKey actualHost privateKeyPath st1 (i + 1) (fuel' + 1)
          (r.1, r.2.1, evA ++ [Event.delay retryDelayMs] ++ r.2.2)

/-- `connect(hostAlias)`: reuse the stored session when its `connection`
and `client` fields are set and the client still reports listeners;
otherwise drop such a (listener-less) stale entry and run the retry loop
against the resolved config.  A stored entry that fails the
`connection && client` test (a local session) is neither reused nor
deleted. -/
def connect (o : ConnectOracle) (st : ExecutorState) (hostAlias : String) :
    Except String Unit × ExecutorState × List Event :=
  let sessionKey := getSessionKey (some hostAlias)
  let entry := mapGet st.sessions sessionKey
  let reusable : Bool :=
    match entry with
    | some s => s.hasConnection && s.clientId.isSome
    | none => false
  if reusable && o.listeners then (.ok (), st, [])
  else
    let st1 :=
      if reusable then { st with sessions := mapDelete st.sessions sessionKey }
      else st
    let actualHost := jsOrStr o.cfg.hostname hostAlias
    let privateKeyPath := jsOrStr o.cfg.identityFile defaultKeyPath
    connectLoop o sessionKey actualHost privateKeyPath st1 0 maxRetries

/-- `String.replace(/"/g, '\\"')`: every double quote becomes
backslash-quote (existing backslashes are left alone). -/
def escDqChars : List Char → List Char
  | [] => []
  | c :: cs => if c = '"' then '\\' :: '"' :: escDqChars cs else c :: escDqChars cs

/-- `fullCommand.replace(/"/g, '\\"')` on strings. -/
def escDq (s : String) : String := String.mk (escDqChars s.data)

/-- One `export KEY="value"` clause (value quote-escaped). -/
def exportStmt (kv : String × String) : String :=
  "export " ++ kv.1 ++ "=\"" ++ escDq kv.2 ++ "\""

/-- `Object.entries(env).map(...).join(' && ')`. -/
def envSetup (env : EnvMap) : String :=
  String.intercalate " && " (env.map exportStmt)

/-- `envSetup ? envSetup + ' && ' + command : command` (the empty string
is falsy). -/
def fullCommand (command : String) (env : EnvMap) : String :=
  let e := envSetup env
  if e = "" then command else e ++ " && " ++ command

/-- The string handed to `client.exec`: the full command, quote-escaped a
second time, wrapped in `/bin/bash --login -c "..."`. -/
def sshExecString (command : String) (env : EnvMap) : String :=
  "/bin/bash --login -c \"" ++ escDq (fullCommand command env) ++ "\""

/-- Outcome of the remote `exec` channel: the callback error, or the
stream's stdout chunks / stderr buffer followed by `close` (the exit
status carried by `close` is recorded but never read by the handler), or
stream data followed by an `error` event. -/
inductive RemoteOutcome where
  | openErr (msg : String)
  | closed (chunks : List String) (errBuf : String) (exitCode : Int)
  | streamErr (chunks : List String) (errBuf : String) (msg : String)
  deriving Repr, DecidableEq

/-- The `error` argument of the local `child_process.exec` callback
(`code` is `undefined` when the process was killed by a signal). -/
structure LocalError where
  code : Option Int
  message : String
  deriving Repr, DecidableEq

/-- The full `(error, stdout, stderr)` triple of the local exec callback. -/
structure LocalOutcome where
  error : Option LocalError
  stdout : String
  stderr : String
  deriving Repr, DecidableEq

/-- External inputs of one `executeCommand` call. -/
structure ExecOracle where
  connectO : ConnectOracle
  probe : Bool
  remote : RemoteOutcome
  localOutcome : LocalOutcome
  procEnv : EnvMap

/-- The `{stdout, stderr}` value `executeCommand` resolves with. -/
structure CmdResult where
  stdout : String
  stderr : String
  deriving Repr, DecidableEq

/-- JavaScript `error.code !== 0` for an optional number
(`undefined !== 0` is true). -/
def jsNeqZeroOpt : Option Int → Bool
  | none => true
  | some c => c != 0

/-- The local callback: `error && error.code !== 0` resolves with
`stderr || error.message`, otherwise with the streams as captured. -/
def localResolve (out : LocalOutcome) : CmdResult :=
  match out.error with
  | some e =>
    if jsNeqZeroOpt e.code then
      { stdout := out.stdout, stderr := jsStrOr out.stderr e.message }
    else
      { stdout := out.stdout, stderr := out.stderr }
  | none => { stdout := out.stdout, stderr := out.stderr }

/-- The `resetTimeout` performed by the remote `data` handler, once per
received stdout chunk. -/
def dataResets (st : ExecutorState) (sessionKey : String) :
    List String → ExecutorState × List Event
  | [] => (st, [])
  | _ :: rest =>
    let p := resetTimeout st sessionKey
    let r := dataResets p.1 sessionKey rest
    (r.1, p.2 ++ r.2)

/-- Lines 188–230 of `executeCommand`'s remote branch, after the
connect-or-reuse decision: re-fetch the session, throw when it is absent
or clientless, `resetTimeout`, then run the wrapped command on the
session's client, resetting the timer on each stdout chunk. -/
def executeRemoteOn (o : ExecOracle) (st : ExecutorState)
    (sessionKey host command : String) (env : EnvMap) (evs : List Event) :
    Except String CmdResult × ExecutorState × List Event :=
  match mapGet st.sessions sessionKey with
  | none => (.error ("无法创建到 " ++ host ++ " 的SSH会话"), st, evs)
  | some s =>
    match s.clientId with
    | none => (.error ("无法创建到 " ++ host ++ " 的SSH会话"), st, evs)
    | some c =>
      let p := resetTimeout st sessionKey
      let cmdStr := sshExecString command env
      match o.remote with
      | .openErr msg =>
        (.error msg, p.1, evs ++ p.2 ++ [Event.execCmd c cmdStr])
      | .closed chunks errBuf _ =>
        let q := dataResets p.1 sessionKey chunks
        (.ok { stdout := String.join chunks, stderr := errBuf }, q.1,
         evs ++ p.2 ++ [Event.execCmd c cmdStr] ++ q.2)
      | .streamErr chunks _errBuf msg =>
        let q := dataResets p.1 sessionKey chunks
        (.error msg, q.1,
         evs ++ p.2 ++ [Event.execCmd c cmdStr] ++ q.2)

/-- The remote branch of `executeCommand` (`if (host) { ... }`): decide
`needNewConnection` with the short-circuit test
`!sessionData || sessionData.host !== host || !sessionData.client ||
!(await isConnectionActive(...))` — the probe runs only when the earlier
disjuncts are false — then connect if needed and execute. -/
def executeRemote (o : ExecOracle) (st : ExecutorState)
    (command host : String) (env : EnvMap) :
    Except String CmdResult × ExecutorState × List Event :=
  let sessionKey := getSessionKey (some host)
  let needNewProbe : Bool × List Event :=
    match mapGet st.sessions sessionKey with
    | none => (true, [])
    | some s =>
      if s.host ≠ some host then (true, [])
      else
        match s.clientId with
        | none => (true, [])
        | some c => (!o.probe, [Event.probe c])
  if needNewProbe.1 then
    match connect o.connectO st host with
    | (.error e, st1, evC) => (.error e, st1, needNewProbe.2 ++ evC)
    | (.ok _, st1, evC) =>
      executeRemoteOn o st1 sessionKey host command env (needNewProbe.2 ++ evC)
  else
    executeRemoteOn o st sessionKey host command env needNewProbe.2

/-- The local branch of `executeCommand`: create the sentinel session
with the call's `env` as overlay, or merge the call's `env` into the
stored overlay; `resetTimeout`; spawn `command` with
`{...process.env, ...sessionEnv}` and `cwd = process.env.DEFAULT_DIR`;
the callback always resolves. -/
def executeLocal (o : ExecOracle) (st : ExecutorState)
    (command : String) (host : Option String) (env : EnvMap) :
    Except String CmdResult × ExecutorState × List Event :=
  let sessionKey := getSessionKey host
  let merged : ExecutorState × EnvMap :=
    match mapGet st.sessions sessionKey with
    | none =>
      let s : Session :=
        { clientId := none, hasConnection := false, timeout := none,
          host := none, env := some env }
      ({ st with sessions := mapSet st.sessions sessionKey s }, env)
    | some s =>
      let cur := s.env.getD []
      let newEnv := jsSpread cur env
      ({ st with sessions := mapSet st.sessions sessionKey { s with env := some newEnv } },
       newEnv)
  let p := resetTimeout merged.1 sessionKey
  let envVars := jsSpread o.procEnv merged.2
  let cwd := mapGet o.procEnv "DEFAULT_DIR"
  (.ok (localResolve o.localOutcome), p.1,
   p.2 ++ [Event.spawnLocal command envVars cwd])

/-- `executeCommand(command, {host, env})`: a truthy `host` selects the
remote branch, an absent or empty `host` the local one. -/
def executeCommand (o : ExecOracle) (st : ExecutorState)
    (command : String) (host : Option String) (env : EnvMap) :
    Except String CmdResult × ExecutorState × List Event :=
  match host with
  | some h =>
    if h = "" then executeLocal o st command host env
    else executeRemote o st command h env
  | none => executeLocal o st command host env

/-- Modelled from the spec: the remote side runs the exec string through
the user's login shell, and env "values are shell-quoted to neutralize
embedded double quotes".  This is the POSIX word-recognition fragment the
exec strings exercise: space separates words; outside quotes a backslash
escapes the next character; a double quote opens a quoted part in which
`\"`, `\\`, `\$` and a backslash-backtick stand for the bare character and
any other character is literal; an unclosed double quote at end of input
is a syntax error (`none`).  No expansion is performed — words are kept
verbatim. -/
def shellWordsAux (tokens : List String) (cur : List Char) (started inDq : Bool) :
    List Char → Option (List String)
  | [] =>
    if inDq then none
    else some (tokens ++ (if started then [String.mk cur] else []))
  | '"' :: rest => shellWordsAux tokens cur true (!inDq) rest
  | '\\' :: c :: rest =>
    if inDq then
      if c = '"' ∨ c = '\\' ∨ c = '$' ∨ c = '`' then
        shellWordsAux tokens (cur ++ [c]) true true rest
      else
        shellWordsAux tokens (cur ++ ['\\', c]) true true rest
    else
      shellWordsAux tokens (cur ++ [c]) true false rest
  | ['\\'] =>
    if inDq then none
    else some (tokens ++ [String.mk (cur ++ ['\\'])])
  | ' ' :: rest =>
    if inDq then shellWordsAux tokens (cur ++ [' ']) true true rest
    else if started then shellWordsAux (tokens ++ [String.mk cur]) [] false false rest
    else shellWordsAux tokens [] false false rest
  | c :: rest => shellWordsAux tokens (cur ++ [c]) true inDq rest

/-- Split a command line into shell words, `none` on a quoting syntax
error. -/
def shellWords (s : String) : Option (List String) :=
  shellWordsAux [] [] false false s.data

/-- Is the event a connection attempt? -/
def isConnAttempt : Event → Bool
  | .connAttempt _ _ => true
  | _ => false

/-- Is the event a retry delay? -/
def isDelay : Event → Bool
  | .delay _ => true
  | _ => false

/-- Is the event the start of an idle timer? -/
def isStartTimer : Event → Bool
  | .startTimer _ _ => true
  | _ => false

/-- Is the event the clearing of an idle timer? -/
def isClearTimer : Event → Bool
  | .clearTimer _ _ => true
  | _ => false

/-- Is the event the closing of a transport? -/
def isCloseTransport : Event → Bool
  | .closeTransport _ _ => true
  | _ => false

/-- How many events of the trace satisfy the predicate. -/
def countP (p : Event → Bool) (evs : List Event) : Nat :=
  (evs.filter p).length

/-- Position of the first event satisfying the predicate. -/
def firstIdxFrom (p : Event → Bool) : List Event → Nat → Option Nat
  | [], _ => none
  | e :: rest, i => if p e then some i else firstIdxFrom p rest (i + 1)

/-- Does every teardown in the trace clear the idle timer before closing
the transport?  Vacuously true when no transport is closed; false when a
transport is closed without, or before, a timer clear. -/
def timerClearedBeforeClose (evs : List Event) : Bool :=
  match firstIdxFrom isCloseTransport evs 0, firstIdxFrom isClearTimer evs 0 with
  | some ic, some il => il < ic
  | some _, none => false
  | none, _ => true

/-- Does the needle start the haystack (character lists)? -/
def leadsWith : List Char → List Char → Bool
  | [], _ => true
  | _ :: _, [] => false
  | a :: as, b :: bs => a = b && leadsWith as bs

/-- Does the needle occur contiguously in the haystack? -/
def containsChars (needle : List Char) : List Char → Bool
  | [] => leadsWith needle []
  | b :: bs => leadsWith needle (b :: bs) || containsChars needle bs

/-- Is `needle` a substring of `hay`? -/
def containsStr (needle hay : String) : Bool :=
  containsChars needle.data hay.data

/-- A fresh executor (`new CommandExecutor()`): empty session map. -/
def emptyState : ExecutorState :=
  { sessions := [], nextTimerId := 0, nextClientId := 0 }

/-- A connect oracle whose key reads and attempts all succeed and whose
stored client reports listeners. -/
def okConnect : ConnectOracle :=
  { cfg := {}, keyRead := fun _ => .ok, connResult := fun _ => none,
    listeners := true }

/-- A local exec callback with no error and empty streams. -/
def quietLocal : LocalOutcome := { error := none, stdout := "", stderr := "" }

/-- A store holding one remote session for host `"h"`: client `0`,
connection promise present, idle timer `7` pending, resolved host `"h"`. -/
def liveState : ExecutorState :=
  { sessions := [("h",
      { clientId := some 0, hasConnection := true, timeout := some 7,
        host := some "h", env := none })],
    nextTimerId := 8, nextClientId := 1 }

/-- C1 scenario: the liveness probe of the stored client fails, but the
client still has its `ready`/`error` listeners (they were registered with
`.on` at creation and are never removed), so `connect`'s listener-count
check passes. -/
def c1Oracle : ExecOracle :=
  { connectO := okConnect, probe := false, remote := .closed ["out"] "" 0,
    localOutcome := quietLocal, procEnv := [] }

/-- C2 scenario: a healthy session; only the built exec string matters. -/
def c2Oracle : ExecOracle :=
  { connectO := okConnect, probe := true, remote := .closed [] "" 0,
    localOutcome := quietLocal, procEnv := [] }

/-- C3 scenario: the SSH config resolves the alias `"h"` to a different
hostname, every connection attempt succeeds, the stored client keeps its
listeners and probes alive. -/
def c3Oracle : ExecOracle :=
  { connectO := { okConnect with cfg := { hostname := some "203.0.113.9" } },
    probe := true, remote := .closed [] "" 0,
    localOutcome := quietLocal, procEnv := [] }

/-- C4 scenario: the private-key file is missing (`ENOENT`). -/
def c4Oracle : ConnectOracle :=
  { cfg := {}, keyRead := fun _ => .enoent, connResult := fun _ => none,
    listeners := false }

/-- C5 scenario: every connection attempt fails with the same
network-level message (which does not mention the alias). -/
def c5FailOracle : ConnectOracle :=
  { cfg := {}, keyRead := fun _ => .ok,
    connResult := fun _ => some "Timed out while waiting for handshake",
    listeners := false }

/-- C6 remote scenario: the command exits non-zero (status 5 on `close`)
after producing output on both streams. -/
def c6RemoteOracle : ExecOracle :=
  { connectO := okConnect, probe := true,
    remote := .closed ["partial ", "output"] "some diagnostics" 5,
    localOutcome := quietLocal, procEnv := [] }

/-- C6 local scenario: the child exits with status 2 and an empty stderr,
the callback error carrying the failure message. -/
def c6LocalOracle : ExecOracle :=
  { connectO := okConnect, probe := true, remote := .closed [] "" 0,
    localOutcome :=
      { error := some { code := some 2, message := "Command failed: false" },
        stdout := "", stderr := "" },
    procEnv := [] }

/-- C7 scenario: local execution with a host process environment. -/
def c7Oracle : ExecOracle :=
  { connectO := okConnect, probe := true, remote := .closed [] "" 0,
    localOutcome := { error := none, stdout := "1 2\n", stderr := "" },
    procEnv := [("PATH", "/bin")] }

/-- C9 scenario: a healthy reused session running a chunk-less command. -/
def c9Oracle : ExecOracle :=
  { connectO := okConnect, probe := true, remote := .closed [] "" 0,
    localOutcome := quietLocal, procEnv := [] }

/-- The fields of a session other than its timer handle. -/
def sessionCore (s : Session) : Option Nat × Bool × Option String × Option EnvMap :=
  (s.clientId, s.hasConnection, s.host, s.env)

theorem getSessionKey_some (h : String) (hne : h ≠ "") :
    getSessionKey (some h) = h := by
  simp [getSessionKey, hne]

theorem mapGet_mapSet_self {α : Type} (m : List (String × α)) (k : String) (v : α) :
    mapGet (mapSet m k v) k = some v := by
  induction m with
  | nil => simp [mapSet, mapGet]
  | cons p rest ih =>
    by_cases h : p.1 = k
    · simp [mapSet, h, mapGet]
    · simp [mapSet, h, mapGet, ih]

theorem mapGet_mapSet_ne {α : Type} (m : List (String × α)) (k k' : String) (v : α)
    (h : k' ≠ k) : mapGet (mapSet m k v) k' = mapGet m k' := by
  have hkk : ¬ k = k' := fun hh => h hh.symm
  induction m with
  | nil => simp [mapSet, mapGet, hkk]
  | cons p rest ih =>
    by_cases hp : p.1 = k
    · subst hp
      simp [mapSet, mapGet, hkk]
    · simp only [mapSet, if_neg hp]
      by_cases hk' : p.1 = k' <;> simp [mapGet, hk', ih]

theorem mapGet_append {α : Type} (a b : List (String × α)) (k : String) :
    mapGet (a ++ b) k =
      match mapGet a k with
      | some v => some v
      | none => mapGet b k := by
  induction a with
  | nil => simp [mapGet]
  | cons p rest ih =>
    by_cases h : p.1 = k <;> simp [mapGet, h, ih]

theorem mapGet_filter_of_key (a : EnvMap) (k : String) (p : String × String → Bool)
    (hp : ∀ x : String × String, x.1 = k → p x = true) :
    mapGet (a.filter p) k = mapGet a k := by
  induction a with
  | nil => rfl
  | cons q rest ih =>
    by_cases hq : q.1 = k
    · simp [List.filter_cons, hp q hq, mapGet, hq]
    · by_cases hpq : p q = true <;>
        simp [List.filter_cons, hpq, mapGet, hq, ih]

theorem mapGet_jsSpread_right (a b : EnvMap) (k v : String)
    (h : mapGet b k = some v) : mapGet (jsSpread a b) k = some v := by
  unfold jsSpread
  rw [mapGet_append, h]

theorem mapGet_jsSpread_left (a b : EnvMap) (k : String)
    (h : mapGet b k = none) : mapGet (jsSpread a b) k = mapGet a k := by
  unfold jsSpread
  rw [mapGet_append, h]
  exact mapGet_filter_of_key a k _ (fun x hx => by rw [hx, h]; rfl)

theorem countP_append (p : Event → Bool) (a b : List Event) :
    countP p (a ++ b) = countP p a + countP p b := by
  simp [countP, List.filter_append]

theorem countP_eq_zero (p : Event → Bool) (evs : List Event)
    (h : ∀ e ∈ evs, p e = false) : countP p evs = 0 := by
  simp only [countP, List.length_eq_zero, List.filter_eq_nil_iff]
  intro e he
  simp [h e he]

theorem resetTimeout_of_none (st : ExecutorState) (k : String)
    (h : mapGet st.sessions k = none) : resetTimeout st k = (st, []) := by
  unfold resetTimeout
  rw [h]

theorem resetTimeout_of_some (st : ExecutorState) (k : String) (s : Session)
    (h : mapGet st.sessions k = some s) :
    resetTimeout st k =
      ({ st with
          sessions := mapSet st.sessions k { s with timeout := some st.nextTimerId },
          nextTimerId := st.nextTimerId + 1 },
       (match s.timeout with
        | some t => [Event.clearTimer k t]
        | none => []) ++ [Event.startTimer k sessionTimeoutMs]) := by
  unfold resetTimeout
  rw [h]

theorem resetTimeout_events_mem (st : ExecutorState) (k : String) (e : Event)
    (he : e ∈ (resetTimeout st k).2) :
    (∃ t, e = Event.clearTimer k t) ∨ e = Event.startTimer k sessionTimeoutMs := by
  unfold resetTimeout at he
  rcases hm : mapGet st.sessions k with - | s
  · rw [hm] at he
    cases he
  · rw [hm] at he
    rcases s with ⟨cid, hconn, tmo, ho, env⟩
    rcases tmo with - | t
    · simp at he
      right
      exact he
    · simp at he
      rcases he with h1 | h2
      · exact Or.inl ⟨t, h1⟩
      · exact Or.inr h2

theorem resetTimeout_core (st : ExecutorState) (k k' : String) :
    (mapGet (resetTimeout st k).1.sessions k').map sessionCore
      = (mapGet st.sessions k').map sessionCore := by
  rcases hm : mapGet st.sessions k with - | s
  · rw [resetTimeout_of_none st k hm]
  · rw [resetTimeout_of_some st k s hm]
    by_cases hk : k' = k
    · subst hk
      rw [show ({ st with
          sessions := mapSet st.sessions k' { s with timeout := some st.nextTimerId },
          nextTimerId := st.nextTimerId + 1 } : ExecutorState).sessions
            = mapSet st.sessions k' { s with timeout := some st.nextTimerId } from rfl,
        mapGet_mapSet_self, hm]
      rfl
    · rw [show ({ st with
          sessions := mapSet st.sessions k { s with timeout := some st.nextTimerId },
          nextTimerId := st.nextTimerId + 1 } : ExecutorState).sessions
            = mapSet st.sessions k { s with timeout := some st.nextTimerId } from rfl,
        mapGet_mapSet_ne _ _ _ _ hk]

theorem dataResets_events_mem (st : ExecutorState) (k : String) (chunks : List String)
    (e : Event) (he : e ∈ (dataResets st k chunks).2) :
    (∃ t, e = Event.clearTimer k t) ∨ e = Event.startTimer k sessionTimeoutMs := by
  induction chunks generalizing st with
  | nil => cases he
  | cons c rest ih =>
    unfold dataResets at he
    rw [List.mem_append] at he
    rcases he with h1 | h2
    · exact resetTimeout_events_mem _ _ _ h1
    · exact ih _ h2

theorem dataResets_core (st : ExecutorState) (k : String) (chunks : List String)
    (k' : String) :
    (mapGet (dataResets st k chunks).1.sessions k').map sessionCore
      = (mapGet st.sessions k').map sessionCore := by
  induction chunks generalizing st with
  | nil => rfl
  | cons c rest ih =>
    unfold dataResets
    rw [ih, resetTimeout_core]

theorem connect_success_first (o : ConnectOracle) (st : ExecutorState) (hostA : String)
    (hno : mapGet st.sessions (getSessionKey (some hostA)) = none)
    (hk : o.keyRead 0 = .ok) (hc : o.connResult 0 = none) :
    connect o st hostA =
      (.ok (),
       { st with
           sessions := mapSet st.sessions (getSessionKey (some hostA))
             { clientId := some st.nextClientId, hasConnection := true, timeout := none,
               host := some (jsOrStr o.cfg.hostname hostA), env := none },
           nextClientId := st.nextClientId + 1 },
       [Event.readKey (jsOrStr o.cfg.identityFile defaultKeyPath),
        Event.connAttempt (jsOrStr o.cfg.hostname hostA) st.nextClientId]) := by
  simp only [connect, connectLoop, maxRetries, hno, hk, hc, keyErrMsg,
    Bool.false_and, Bool.false_eq_true, if_false]
  rw [resetTimeout_of_none
    { sessions := st.sessions, nextTimerId := st.nextTimerId,
      nextClientId := st.nextClientId + 1 } _ hno]
  simp

theorem connect_reuse (o : ConnectOracle) (st : ExecutorState) (hostA : String)
    (s : Session)
    (hs : mapGet st.sessions (getSessionKey (some hostA)) = some s)
    (hconn : s.hasConnection = true) (hcl : s.clientId.isSome = true)
    (hl : o.listeners = true) :
    connect o st hostA = (.ok (), st, []) := by
  simp only [connect, hs, hconn, hcl, hl, Bool.true_and, Bool.and_self, if_true]

theorem executeRemoteOn_closed (o : ExecOracle) (st : ExecutorState)
    (key host cmd : String) (env : EnvMap) (evs : List Event) (s : Session) (c : Nat)
    (hs : mapGet st.sessions key = some s) (hc : s.clientId = some c)
    (chunks : List String) (errBuf : String) (x : Int)
    (hr : o.remote = .closed chunks errBuf x) :
    executeRemoteOn o st key host cmd env evs =
      (.ok { stdout := String.join chunks, stderr := errBuf },
       (dataResets (resetTimeout st key).1 key chunks).1,
       evs ++ (resetTimeout st key).2 ++ [Event.execCmd c (sshExecString cmd env)]
           ++ (dataResets (resetTimeout st key).1 key chunks).2) := by
  simp only [executeRemoteOn, hs, hc, hr]

theorem executeRemote_fresh (o : ExecOracle) (st : ExecutorState)
    (cmd h : String) (env : EnvMap)
    (hne : h ≠ "") (hno : mapGet st.sessions h = none) :
    executeRemote o st cmd h env =
      match connect o.connectO st h with
      | (.error e, st1, evC) => (.error e, st1, evC)
      | (.ok _, st1, evC) => executeRemoteOn o st1 h h cmd env evC := by
  simp only [executeRemote, getSessionKey_some h hne, hno]
  rcases connect o.connectO st h with ⟨r, st1, evC⟩
  cases r <;> simp

theorem executeRemote_alive (o : ExecOracle) (st : ExecutorState)
    (cmd h : String) (env : EnvMap) (s : Session) (c : Nat)
    (hne : h ≠ "") (hs : mapGet st.sessions h = some s) (hh : s.host = some h)
    (hc : s.clientId = some c) (hp : o.probe = true) :
    executeRemote o st cmd h env =
      executeRemoteOn o st h h cmd env [Event.probe c] := by
  simp only [executeRemote, getSessionKey_some h hne, hs, hh, hc, hp]
  simp

theorem executeRemote_hostMismatch (o : ExecOracle) (st : ExecutorState)
    (cmd h : String) (env : EnvMap) (s : Session)
    (hne : h ≠ "") (hs : mapGet st.sessions h = some s) (hh : s.host ≠ some h) :
    executeRemote o st cmd h env =
      match connect o.connectO st h with
      | (.error e, st1, evC) => (.error e, st1, evC)
      | (.ok _, st1, evC) => executeRemoteOn o st1 h h cmd env evC := by
  simp only [executeRemote, getSessionKey_some h hne, hs, if_pos hh]
  rcases connect o.connectO st h with ⟨r, st1, evC⟩
  cases r <;> simp

theorem executeLocal_result (o : ExecOracle) (st : ExecutorState)
    (cmd : String) (host : Option String) (env : EnvMap) :
    (executeLocal o st cmd host env).1 = .ok (localResolve o.localOutcome) := by
  unfold executeLocal
  rcases hm : mapGet st.sessions (getSessionKey host) with - | s <;> simp [hm]

theorem core_eq_fields {s s' : Session} (h : sessionCore s = sessionCore s') :
    s.clientId = s'.clientId ∧ s.hasConnection = s'.hasConnection ∧
    s.host = s'.host ∧ s.env = s'.env := by
  simp only [sessionCore, Prod.mk.injEq] at h
  exact ⟨h.1, h.2.1, h.2.2.1, h.2.2.2⟩

theorem execState_core (stC : ExecutorState) (key : String) (chunks : List String)
    (k' : String) :
    (mapGet (dataResets (resetTimeout stC key).1 key chunks).1.sessions k').map sessionCore
      = (mapGet stC.sessions k').map sessionCore := by
  rw [dataResets_core, resetTimeout_core]

theorem connect_keyread_fails (o : ConnectOracle) (st : ExecutorState)
    (hostA msg : String)
    (hno : mapGet st.sessions (getSessionKey (some hostA)) = none)
    (hk : keyErrMsg (jsOrStr o.cfg.identityFile defaultKeyPath) (o.keyRead 0) = some msg) :
    connect o st hostA =
      (.error msg, st, [Event.readKey (jsOrStr o.cfg.identityFile defaultKeyPath)]) := by
  simp only [connect, connectLoop, maxRetries, hno, hk, Bool.false_and,
    Bool.false_eq_true, if_false]

theorem executeRemoteOn_closed_conclusions (o : ExecOracle) (stF : ExecutorState)
    (h cmd : String) (env : EnvMap) (evs : List Event) (s2 : Session) (c : Nat)
    (hF : mapGet stF.sessions h = some s2) (hc2 : s2.clientId = some c)
    (chunks : List String) (eb : String) (x : Int) (hr : o.remote = .closed chunks eb x) :
    countP isConnAttempt (executeRemoteOn o stF h h cmd env evs).2.2 =
      countP isConnAttempt evs ∧
    (mapGet (executeRemoteOn o stF h h cmd env evs).2.1.sessions h).map
        Session.clientId = some (some c) := by
  rw [executeRemoteOn_closed o stF h h cmd env evs s2 c hF hc2 chunks eb x hr]
  constructor
  · have h1 : countP isConnAttempt (resetTimeout stF h).2 = 0 :=
      countP_eq_zero _ _ (fun e he => by
        rcases resetTimeout_events_mem _ _ _ he with ⟨t, rfl⟩ | rfl <;> rfl)
    have h2 : countP isConnAttempt (dataResets (resetTimeout stF h).1 h chunks).2 = 0 :=
      countP_eq_zero _ _ (fun e he => by
        rcases dataResets_events_mem _ _ _ _ he with ⟨t, rfl⟩ | rfl <;> rfl)
    simp only [countP_append, h1, h2]
    simp [countP, isConnAttempt]
  · have hcore := execState_core stF h chunks h
    rw [hF] at hcore
    rcases hX : mapGet (dataResets (resetTimeout stF h).1 h chunks).1.sessions h with - | s3
    · rw [hX] at hcore
      cases hcore
    · rw [hX] at hcore
      simp only [Option.map_some'] at hcore ⊢
      have hfields := core_eq_fields (Option.some.inj hcore)
      rw [hfields.1, hc2]

theorem executeLocal_fresh (o : ExecOracle) (st : ExecutorState) (cmd : String)
    (env : EnvMap) (hno : mapGet st.sessions "local" = none) :
    executeLocal o st cmd none env =
      (.ok (localResolve o.localOutcome),
       (resetTimeout { st with
           sessions := mapSet st.sessions "local"
                         { clientId := none, hasConnection := false, timeout := none,
                           host := none, env := some env } } "local").1,
       (resetTimeout { st with
           sessions := mapSet st.sessions "local"
                         { clientId := none, hasConnection := false, timeout := none,
                           host := none, env := some env } } "local").2
         ++ [Event.spawnLocal cmd (jsSpread o.procEnv env)
              (mapGet o.procEnv "DEFAULT_DIR")]) := by
  simp only [executeLocal, getSessionKey, hno]

theorem executeLocal_merge (o : ExecOracle) (st : ExecutorState) (cmd : String)
    (env : EnvMap) (s : Session) (hs : mapGet st.sessions "local" = some s) :
    executeLocal o st cmd none env =
      (.ok (localResolve o.localOutcome),
       (resetTimeout { st with
           sessions := mapSet st.sessions "local"
                         { s with env := some (jsSpread (s.env.getD []) env) } } "local").1,
       (resetTimeout { st with
           sessions := mapSet st.sessions "local"
                         { s with env := some (jsSpread (s.env.getD []) env) } } "local").2
         ++ [Event.spawnLocal cmd (jsSpread o.procEnv (jsSpread (s.env.getD []) env))
              (mapGet o.procEnv "DEFAULT_DIR")]) := by
  simp only [executeLocal, getSessionKey, hs]

/-- C10: `getSessionKey` is not injective at its public interface — the
host string `"local"`, the empty host string and the no-host sentinel all
map to the same key `"local"`, so a remote host named `"local"` shares its
Session Store entry with local execution.  (Determinism is immediate:
`getSessionKey` is a pure function of its argument.) -/
theorem c10_session_key_collapses_to_local :
    getSessionKey (some "local") = getSessionKey none ∧
    getSessionKey (some "") = getSessionKey none ∧
    getSessionKey none = "local" ∧
    (some "local" : Option String) ≠ some "" := by
  decide

/-- C1: the claim says a session whose liveness probe fails is discarded
and replaced before the command runs, and that the probed-dead handle
never executes the command.  On the code, `executeCommand` sees the
failed probe and calls `connect`, but `connect`'s reuse check only
consults the client's listener counts — and the `ready`/`error` handlers
registered at creation are never removed — so `connect` returns the same
stored session, no connection attempt is made, and the command executes
on the very client (id 0) whose probe just returned false. -/
theorem c1_probed_dead_session_reused :
    c1Oracle.probe = false ∧
    (executeCommand c1Oracle liveState "ls" (some "h") []).2.2 =
      [Event.probe 0, Event.clearTimer "h" 7, Event.startTimer "h" sessionTimeoutMs,
       Event.execCmd 0 (sshExecString "ls" []),
       Event.clearTimer "h" 8, Event.startTimer "h" sessionTimeoutMs] ∧
    countP isConnAttempt (executeCommand c1Oracle liveState "ls" (some "h") []).2.2 = 0 ∧
    (mapGet (executeCommand c1Oracle liveState "ls" (some "h") []).2.1.sessions "h").map
        Session.clientId = some (some 0) := by
  decide

/-- C2: the claim says env values are shell-quoted so embedded double
quotes survive (`echo $X` with `X = a"b` prints `a"b`).  On the code the
value is escaped once for the `export` clause and the whole command is
escaped a second time for the `/bin/bash --login -c "..."` wrapper, so the
escaped quote becomes `\\"`, which closes the `-c` argument early and
leaves an unterminated quote: the remote shell cannot parse the exec
string at all (`shellWords` = none), while quote-free values parse to the
intended `-c` payload. -/
theorem c2_quoted_env_value_breaks_exec_string :
    Event.execCmd 0 (sshExecString "echo $X" [("X", "a\"b")])
        ∈ (executeCommand c2Oracle liveState "echo $X" (some "h") [("X", "a\"b")]).2.2 ∧
    sshExecString "echo $X" [("X", "a\"b")] =
      "/bin/bash --login -c \"export X=\\\"a\\\\\"b\\\" && echo $X\"" ∧
    shellWords (sshExecString "echo $X" [("X", "a\"b")]) = none ∧
    shellWords (sshExecString "echo $X" []) =
      some ["/bin/bash", "--login", "-c", "echo $X"] ∧
    shellWords (sshExecString "echo $Y" [("Y", "ab")]) =
      some ["/bin/bash", "--login", "-c", "export Y=\"ab\" && echo $Y"] := by
  decide

/-- C5 counterexample: when every attempt fails, the propagated error is
the raw last connection error — `connect` rethrows it unchanged, so the
message carries no annotation with the host alias (the alias only appears
in log lines). -/
theorem c5_error_lacks_alias_annotation :
    (connect c5FailOracle emptyState "myhost").1 =
      .error "Timed out while waiting for handshake" ∧
    containsStr "myhost" "Timed out while waiting for handshake" = false :=
  ⟨rfl, by decide⟩

/-- C9 counterexample: tearing down the live session for `"h"` emits
`client.end()` (transport close) first and `clearTimeout` second — the
timer is cleared after the transport close, not before as claimed. -/
theorem c9_teardown_closes_before_clearing :
    (disconnectSession liveState "h").2 =
      [Event.closeTransport "h" 0, Event.clearTimer "h" 7] ∧
    timerClearedBeforeClose (disconnectSession liveState "h").2 = false := by
  decide

/-- C4: a failed credential read — missing file (`ENOENT`), unsupported /
encrypted format, or any other read error — makes `connect` throw the
corresponding terminal error immediately: the trace holds exactly the one
key read, so no network connection is attempted for that read, the failure
is not retried, no retry delay elapses, and the state is unchanged. -/
theorem c4_credential_error_is_terminal (o : ConnectOracle) (st : ExecutorState)
    (hostA : String)
    (hno : mapGet st.sessions (getSessionKey (some hostA)) = none)
    (hk : o.keyRead 0 ≠ .ok) :
    ∃ msg,
      keyErrMsg (jsOrStr o.cfg.identityFile defaultKeyPath) (o.keyRead 0) = some msg ∧
      connect o st hostA =
        (.error msg, st, [Event.readKey (jsOrStr o.cfg.identityFile defaultKeyPath)]) ∧
      countP isConnAttempt (connect o st hostA).2.2 = 0 ∧
      countP isDelay (connect o st hostA).2.2 = 0 := by
  have hmsg : ∃ msg,
      keyErrMsg (jsOrStr o.cfg.identityFile defaultKeyPath) (o.keyRead 0) = some msg := by
    rcases hkr : o.keyRead 0 with - | - | m | m
    · exact absurd hkr hk
    · exact ⟨_, rfl⟩
    · exact ⟨_, rfl⟩
    · exact ⟨_, rfl⟩
  obtain ⟨msg, hm⟩ := hmsg
  have hcn := connect_keyread_fails o st hostA msg hno hm
  refine ⟨msg, hm, hcn, ?_, ?_⟩ <;> rw [hcn] <;> simp [countP, isConnAttempt, isDelay]

/-- C4 witness: the ENOENT scenario on a fresh executor. -/
theorem c4_witness :
    ∃ msg,
      keyErrMsg (jsOrStr c4Oracle.cfg.identityFile defaultKeyPath)
        (c4Oracle.keyRead 0) = some msg ∧
      connect c4Oracle emptyState "web" =
        (.error msg, emptyState,
         [Event.readKey (jsOrStr c4Oracle.cfg.identityFile defaultKeyPath)]) ∧
      countP isConnAttempt (connect c4Oracle emptyState "web").2.2 = 0 ∧
      countP isDelay (connect c4Oracle emptyState "web").2.2 = 0 :=
  c4_credential_error_is_terminal c4Oracle emptyState "web" (by decide) (by decide)

/-- C5 (amended): when all three attempts fail (with the 2-second delay
between them), `connect` propagates the *last* connection error unchanged
— the thrown message is exactly the underlying error message, with no
host-alias annotation — and leaves no entry for the session key: the
sessions map is exactly as before. -/
theorem c5_amended_last_error_propagated_raw
    (o : ConnectOracle) (st : ExecutorState) (hostA : String) (m0 m1 m2 : String)
    (hno : mapGet st.sessions (getSessionKey (some hostA)) = none)
    (hk0 : o.keyRead 0 = .ok) (hk1 : o.keyRead 1 = .ok) (hk2 : o.keyRead 2 = .ok)
    (h0 : o.connResult 0 = some m0) (h1 : o.connResult 1 = some m1)
    (h2 : o.connResult 2 = some m2) :
    connect o st hostA =
      (.error m2,
       { st with nextClientId := st.nextClientId + 1 + 1 + 1 },
       [Event.readKey (jsOrStr o.cfg.identityFile defaultKeyPath),
        Event.connAttempt (jsOrStr o.cfg.hostname hostA) st.nextClientId,
        Event.delay retryDelayMs,
        Event.readKey (jsOrStr o.cfg.identityFile defaultKeyPath),
        Event.connAttempt (jsOrStr o.cfg.hostname hostA) (st.nextClientId + 1),
        Event.delay retryDelayMs,
        Event.readKey (jsOrStr o.cfg.identityFile defaultKeyPath),
        Event.connAttempt (jsOrStr o.cfg.hostname hostA) (st.nextClientId + 1 + 1)]) ∧
    (connect o st hostA).2.1.sessions = st.sessions ∧
    mapGet (connect o st hostA).2.1.sessions (getSessionKey (some hostA)) = none := by
  have hcn : connect o st hostA =
      (.error m2,
       { st with nextClientId := st.nextClientId + 1 + 1 + 1 },
       [Event.readKey (jsOrStr o.cfg.identityFile defaultKeyPath),
        Event.connAttempt (jsOrStr o.cfg.hostname hostA) st.nextClientId,
        Event.delay retryDelayMs,
        Event.readKey (jsOrStr o.cfg.identityFile defaultKeyPath),
        Event.connAttempt (jsOrStr o.cfg.hostname hostA) (st.nextClientId + 1),
        Event.delay retryDelayMs,
        Event.readKey (jsOrStr o.cfg.identityFile defaultKeyPath),
        Event.connAttempt (jsOrStr o.cfg.hostname hostA) (st.nextClientId + 1 + 1)]) := by
    simp only [connect, connectLoop, maxRetries, hno, hk0, hk1, hk2, h0, h1, h2,
      keyErrMsg, Bool.false_and, Bool.false_eq_true, if_false]
    simp
  refine ⟨hcn, ?_, ?_⟩
  · rw [hcn]
  · rw [hcn]
    exact hno

/-- C5 witness for the amended statement: the all-fail scenario on a
fresh executor. -/
theorem c5_amended_witness :
    connect c5FailOracle emptyState "myhost" =
      (.error "Timed out while waiting for handshake",
       { emptyState with nextClientId := emptyState.nextClientId + 1 + 1 + 1 },
       [Event.readKey (jsOrStr c5FailOracle.cfg.identityFile defaultKeyPath),
        Event.connAttempt (jsOrStr c5FailOracle.cfg.hostname "myhost")
          emptyState.nextClientId,
        Event.delay retryDelayMs,
        Event.readKey (jsOrStr c5FailOracle.cfg.identityFile defaultKeyPath),
        Event.connAttempt (jsOrStr c5FailOracle.cfg.hostname "myhost")
          (emptyState.nextClientId + 1),
        Event.delay retryDelayMs,
        Event.readKey (jsOrStr c5FailOracle.cfg.identityFile defaultKeyPath),
        Event.connAttempt (jsOrStr c5FailOracle.cfg.hostname "myhost")
          (emptyState.nextClientId + 1 + 1)]) ∧
    (connect c5FailOracle emptyState "myhost").2.1.sessions = emptyState.sessions ∧
    mapGet (connect c5FailOracle emptyState "myhost").2.1.sessions
      (getSessionKey (some "myhost")) = none :=
  c5_amended_last_error_propagated_raw c5FailOracle emptyState "myhost"
    "Timed out while waiting for handshake" "Timed out while waiting for handshake"
    "Timed out while waiting for handshake" (by decide) rfl rfl rfl rfl rfl rfl

/-- C8: the claim says `connect` installs the handle, starts the Eviction
Timer and returns with the idle timer running.  The handle is installed,
but the `ready` handler calls `resetTimeout` *before* `sessions.set`, so
the reset finds no session and does nothing: the stored handle has
`timeout: null`, no timer-start is emitted during `connect`, and after
`connect` returns no idle timer is running (only the subsequent
`resetTimeout` in `executeCommand` arms it). -/
theorem c8_connect_returns_with_unarmed_timer (o : ConnectOracle)
    (st : ExecutorState) (hostA : String)
    (hno : mapGet st.sessions (getSessionKey (some hostA)) = none)
    (hk : o.keyRead 0 = .ok) (hc : o.connResult 0 = none) :
    (connect o st hostA).1 = .ok () ∧
    (mapGet (connect o st hostA).2.1.sessions (getSessionKey (some hostA))).map
        Session.timeout = some none ∧
    countP isStartTimer (connect o st hostA).2.2 = 0 := by
  rw [connect_success_first o st hostA hno hk hc]
  refine ⟨rfl, ?_, ?_⟩
  · simp [mapGet_mapSet_self]
  · simp [countP, isStartTimer]

/-- C8 witness: a successful first attempt on a fresh executor. -/
theorem c8_witness :
    (connect okConnect emptyState "web").1 = .ok () ∧
    (mapGet (connect okConnect emptyState "web").2.1.sessions
        (getSessionKey (some "web"))).map Session.timeout = some none ∧
    countP isStartTimer (connect okConnect emptyState "web").2.2 = 0 :=
  c8_connect_returns_with_unarmed_timer okConnect emptyState "web" (by decide) rfl rfl

theorem executeCommand_none (o : ExecOracle) (st : ExecutorState) (cmd : String)
    (env : EnvMap) :
    executeCommand o st cmd none env = executeLocal o st cmd none env := rfl

theorem executeCommand_some (o : ExecOracle) (st : ExecutorState) (cmd h : String)
    (env : EnvMap) (hne : h ≠ "") :
    executeCommand o st cmd (some h) env = executeRemote o st cmd h env := by
  simp [executeCommand, hne]

/-- C6: a non-zero exit status is never raised as an error.  On the remote
path the `close` handler ignores the exit status entirely and resolves
with both accumulated streams (the result below does not depend on
`exitCode`); on the local path the callback always resolves, and when the
child failed (`error` set, `code !== 0`) with nothing captured on stderr,
stderr is populated with the error's message. -/
theorem c6_nonzero_exit_returns_both_streams
    (o : ExecOracle) (st : ExecutorState) (h cmd : String) (env : EnvMap)
    (s : Session) (c : Nat)
    (hne : h ≠ "") (hs : mapGet st.sessions h = some s) (hh : s.host = some h)
    (hc : s.clientId = some c) (hp : o.probe = true)
    (chunks : List String) (errBuf : String) (exitCode : Int)
    (hr : o.remote = .closed chunks errBuf exitCode)
    (ol : ExecOracle) (stl : ExecutorState) (cmdl : String) (envl : EnvMap)
    (e : LocalError) (out errS : String)
    (hl : ol.localOutcome = { error := some e, stdout := out, stderr := errS })
    (hcode : jsNeqZeroOpt e.code = true) :
    (executeCommand o st cmd (some h) env).1 =
      .ok { stdout := String.join chunks, stderr := errBuf } ∧
    (executeCommand ol stl cmdl none envl).1 =
      .ok { stdout := out, stderr := jsStrOr errS e.message } ∧
    (errS = "" → jsStrOr errS e.message = e.message) := by
  refine ⟨?_, ?_, ?_⟩
  · rw [executeCommand_some o st cmd h env hne,
      executeRemote_alive o st cmd h env s c hne hs hh hc hp,
      executeRemoteOn_closed o st h h cmd env [Event.probe c] s c hs hc
        chunks errBuf exitCode hr]
  · rw [executeCommand_none, executeLocal_result, hl]
    simp [localResolve, hcode]
  · intro hes
    simp [jsStrOr, hes]

/-- C6 witness: remote command exiting 5 with output on both streams;
local command exiting 2 with an empty captured stderr. -/
theorem c6_witness :
    (executeCommand c6RemoteOracle liveState "exit 5" (some "h") []).1 =
      .ok { stdout := String.join ["partial ", "output"], stderr := "some diagnostics" } ∧
    (executeCommand c6LocalOracle emptyState "false" none []).1 =
      .ok { stdout := "", stderr := jsStrOr "" "Command failed: false" } ∧
    ("" = "" → jsStrOr "" "Command failed: false" = "Command failed: false") :=
  c6_nonzero_exit_returns_both_streams c6RemoteOracle liveState "h" "exit 5" []
    { clientId := some 0, hasConnection := true, timeout := some 7,
      host := some "h", env := none } 0
    (by decide) (by decide) rfl rfl rfl
    ["partial ", "output"] "some diagnostics" 5 rfl
    c6LocalOracle emptyState "false" []
    { code := some 2, message := "Command failed: false" } "" ""
    rfl (by decide)

/-- C9 (amended): the idle timer is reset at the *start* of a (remote)
execution — clear+start are emitted before the exec channel opens — and
again on each received stdout chunk; during teardown the timer is cleared
immediately *after* the `client.end()` transport close, not before. -/
theorem c9_amended_reset_at_start_cleared_after_close
    (st : ExecutorState) (k : String) (s : Session) (c t : Nat)
    (hs : mapGet st.sessions k = some s) (hc : s.clientId = some c)
    (ht : s.timeout = some t)
    (o : ExecOracle) (st' : ExecutorState) (h' cmd : String) (env : EnvMap)
    (s' : Session) (c' t' : Nat)
    (hne : h' ≠ "") (hs' : mapGet st'.sessions h' = some s') (hh' : s'.host = some h')
    (hc' : s'.clientId = some c') (ht' : s'.timeout = some t') (hp : o.probe = true)
    (chunks : List String) (errBuf : String) (x : Int)
    (hr : o.remote = .closed chunks errBuf x) :
    disconnectSession st k =
      ({ st with sessions := mapDelete st.sessions k },
       [Event.closeTransport k c, Event.clearTimer k t]) ∧
    (executeCommand o st' cmd (some h') env).2.2 =
      [Event.probe c', Event.clearTimer h' t', Event.startTimer h' sessionTimeoutMs,
       Event.execCmd c' (sshExecString cmd env)]
        ++ (dataResets (resetTimeout st' h').1 h' chunks).2 := by
  constructor
  · simp [disconnectSession, hs, hc, ht]
  · rw [executeCommand_some o st' cmd h' env hne,
      executeRemote_alive o st' cmd h' env s' c' hne hs' hh' hc' hp,
      executeRemoteOn_closed o st' h' h' cmd env [Event.probe c'] s' c' hs' hc'
        chunks errBuf x hr]
    rw [resetTimeout_of_some st' h' s' hs', ht']
    simp

/-- C9 witness for the amended statement: teardown of the live session
and a chunk-less remote execution on it. -/
theorem c9_amended_witness :
    disconnectSession liveState "h" =
      ({ liveState with sessions := mapDelete liveState.sessions "h" },
       [Event.closeTransport "h" 0, Event.clearTimer "h" 7]) ∧
    (executeCommand c9Oracle liveState "uptime" (some "h") []).2.2 =
      [Event.probe 0, Event.clearTimer "h" 7, Event.startTimer "h" sessionTimeoutMs,
       Event.execCmd 0 (sshExecString "uptime" [])]
        ++ (dataResets (resetTimeout liveState "h").1 "h" []).2 :=
  c9_amended_reset_at_start_cleared_after_close liveState "h"
    { clientId := some 0, hasConnection := true, timeout := some 7,
      host := some "h", env := none } 0 7 (by decide) rfl rfl
    c9Oracle liveState "h" "uptime" []
    { clientId := some 0, hasConnection := true, timeout := some 7,
      host := some "h", env := none } 0 7
    (by decide) (by decide) rfl rfl rfl rfl [] "" 0 rfl

theorem executeLocal_twice_overlay (o1 o2 : ExecOracle) (st : ExecutorState)
    (hno : mapGet st.sessions "local" = none) (cmd1 cmd2 : String)
    (e1 e2 : EnvMap) :
    ((mapGet (executeCommand o2 (executeCommand o1 st cmd1 none e1).2.1
        cmd2 none e2).2.1.sessions "local").map Session.env)
      = some (some (jsSpread e1 e2)) ∧
    Event.spawnLocal cmd2 (jsSpread o2.procEnv (jsSpread e1 e2))
        (mapGet o2.procEnv "DEFAULT_DIR")
      ∈ (executeCommand o2 (executeCommand o1 st cmd1 none e1).2.1
          cmd2 none e2).2.2 := by
  rw [executeCommand_none o1 st cmd1 e1, executeLocal_fresh o1 st cmd1 e1 hno]
  dsimp only
  rw [resetTimeout_of_some _ "local" _ (mapGet_mapSet_self st.sessions "local" _)]
  dsimp only
  rw [executeCommand_none, executeLocal_merge o2 _ cmd2 e2 _ (mapGet_mapSet_self _ "local" _)]
  dsimp only
  rw [resetTimeout_of_some _ "local" _ (mapGet_mapSet_self _ "local" _)]
  dsimp only
  constructor
  · rw [mapGet_mapSet_self]
    rfl
  · simp

/-- C7: local executions accumulate the environment overlay.  After two
local calls from a state with no local session, the stored overlay is the
spread of the first call's env with the second's — keys of the later call
override, keys absent from the later call persist — and the second child
process is spawned with `{...process.env, ...overlay}`, whose lookups
yield the persisted and the new value (so `echo $A $B` with
`A=1` from call one and `B=2` from call two prints `1 2`). -/
theorem c7_local_env_overlay_accumulates
    (o1 o2 : ExecOracle) (st : ExecutorState)
    (hno : mapGet st.sessions "local" = none)
    (cmd1 cmd2 : String) (e1 e2 : EnvMap)
    (k1 k2 v1 v2 : String)
    (hk2 : mapGet e2 k2 = some v2)
    (hk1b : mapGet e2 k1 = none) (hk1a : mapGet e1 k1 = some v1) :
    ((mapGet (executeCommand o2 (executeCommand o1 st cmd1 none e1).2.1
        cmd2 none e2).2.1.sessions "local").map Session.env)
      = some (some (jsSpread e1 e2)) ∧
    Event.spawnLocal cmd2 (jsSpread o2.procEnv (jsSpread e1 e2))
        (mapGet o2.procEnv "DEFAULT_DIR")
      ∈ (executeCommand o2 (executeCommand o1 st cmd1 none e1).2.1
          cmd2 none e2).2.2 ∧
    mapGet (jsSpread e1 e2) k2 = some v2 ∧
    mapGet (jsSpread e1 e2) k1 = some v1 ∧
    mapGet (jsSpread o2.procEnv (jsSpread e1 e2)) k2 = some v2 ∧
    mapGet (jsSpread o2.procEnv (jsSpread e1 e2)) k1 = some v1 := by
  have hover := executeLocal_twice_overlay o1 o2 st hno cmd1 cmd2 e1 e2
  have h2 : mapGet (jsSpread e1 e2) k2 = some v2 :=
    mapGet_jsSpread_right e1 e2 k2 v2 hk2
  have h1 : mapGet (jsSpread e1 e2) k1 = some v1 := by
    rw [mapGet_jsSpread_left e1 e2 k1 hk1b]
    exact hk1a
  exact ⟨hover.1, hover.2, h2, h1,
    mapGet_jsSpread_right _ _ k2 v2 h2,
    mapGet_jsSpread_right _ _ k1 v1 h1⟩

/-- C7 witness: `execute("echo $A", {env:{A:"1"}})` then
`execute("echo $A $B", {env:{B:"2"}})` on a fresh executor — the spawned
environment of the second call maps `A` to `"1"` and `B` to `"2"`. -/
theorem c7_witness :
    ((mapGet (executeCommand c7Oracle (executeCommand c7Oracle emptyState
        "echo $A" none [("A", "1")]).2.1
        "echo $A $B" none [("B", "2")]).2.1.sessions "local").map Session.env)
      = some (some (jsSpread [("A", "1")] [("B", "2")])) ∧
    Event.spawnLocal "echo $A $B"
        (jsSpread c7Oracle.procEnv (jsSpread [("A", "1")] [("B", "2")]))
        (mapGet c7Oracle.procEnv "DEFAULT_DIR")
      ∈ (executeCommand c7Oracle (executeCommand c7Oracle emptyState
          "echo $A" none [("A", "1")]).2.1 "echo $A $B" none [("B", "2")]).2.2 ∧
    mapGet (jsSpread [("A", "1")] [("B", "2")]) "B" = some "2" ∧
    mapGet (jsSpread [("A", "1")] [("B", "2")]) "A" = some "1" ∧
    mapGet (jsSpread c7Oracle.procEnv (jsSpread [("A", "1")] [("B", "2")])) "B"
      = some "2" ∧
    mapGet (jsSpread c7Oracle.procEnv (jsSpread [("A", "1")] [("B", "2")])) "A"
      = some "1" :=
  c7_local_env_overlay_accumulates c7Oracle c7Oracle emptyState rfl
    "echo $A" "echo $A $B" [("A", "1")] [("B", "2")] "A" "B" "1" "2"
    (by decide) (by decide) (by decide)

/-- C3: from a state with no session for host `h`, the first `execute`
performs exactly one connection attempt and installs exactly one handle
(the freshly created client) under `h`'s key; a second call within the
idle window performs no connection attempt at all and runs on the same
client — both when the stored resolved host equals the requested alias
(liveness probe path) and when the SSH config resolved the alias to a
different hostname (in which case the host-mismatch branch calls
`connect`, whose listener-count check returns the existing session
untouched). -/
theorem c3_connect_once_then_reuse
    (st : ExecutorState) (h : String) (o1 o2 : ExecOracle)
    (cmd1 cmd2 : String) (env1 env2 : EnvMap)
    (hne : h ≠ "") (hno : mapGet st.sessions h = none)
    (hk : o1.connectO.keyRead 0 = .ok) (hc : o1.connectO.connResult 0 = none)
    (chunks1 : List String) (eb1 : String) (x1 : Int)
    (hr1 : o1.remote = .closed chunks1 eb1 x1)
    (chunks2 : List String) (eb2 : String) (x2 : Int)
    (hr2 : o2.remote = .closed chunks2 eb2 x2)
    (hl : o2.connectO.listeners = true) (hp : o2.probe = true) :
    countP isConnAttempt (executeCommand o1 st cmd1 (some h) env1).2.2 = 1 ∧
    (mapGet (executeCommand o1 st cmd1 (some h) env1).2.1.sessions h).map
        Session.clientId = some (some st.nextClientId) ∧
    countP isConnAttempt
      (executeCommand o2 (executeCommand o1 st cmd1 (some h) env1).2.1
        cmd2 (some h) env2).2.2 = 0 ∧
    (mapGet (executeCommand o2 (executeCommand o1 st cmd1 (some h) env1).2.1
        cmd2 (some h) env2).2.1.sessions h).map
        Session.clientId = some (some st.nextClientId) := by
  have hkey : getSessionKey (some h) = h := getSessionKey_some h hne
  have hno' : mapGet st.sessions (getSessionKey (some h)) = none := by
    rw [hkey]
    exact hno
  have hconn := connect_success_first o1.connectO st h hno' hk hc
  rw [hkey] at hconn
  have hcall1 : executeCommand o1 st cmd1 (some h) env1 =
      executeRemoteOn o1
        { st with
            sessions := mapSet st.sessions h
                          { clientId := some st.nextClientId, hasConnection := true,
                            timeout := none,
                            host := some (jsOrStr o1.connectO.cfg.hostname h),
                            env := none },
            nextClientId := st.nextClientId + 1 }
        h h cmd1 env1
        [Event.readKey (jsOrStr o1.connectO.cfg.identityFile defaultKeyPath),
         Event.connAttempt (jsOrStr o1.connectO.cfg.hostname h) st.nextClientId] := by
    rw [executeCommand_some o1 st cmd1 h env1 hne,
      executeRemote_fresh o1 st cmd1 h env1 hne hno, hconn]
  have hcc1 := executeRemoteOn_closed_conclusions o1
      { st with
          sessions := mapSet st.sessions h
                        { clientId := some st.nextClientId, hasConnection := true,
                          timeout := none,
                          host := some (jsOrStr o1.connectO.cfg.hostname h),
                          env := none },
          nextClientId := st.nextClientId + 1 }
      h cmd1 env1
      [Event.readKey (jsOrStr o1.connectO.cfg.identityFile defaultKeyPath),
       Event.connAttempt (jsOrStr o1.connectO.cfg.hostname h) st.nextClientId]
      { clientId := some st.nextClientId, hasConnection := true, timeout := none,
        host := some (jsOrStr o1.connectO.cfg.hostname h), env := none }
      st.nextClientId
      (mapGet_mapSet_self st.sessions h _) rfl chunks1 eb1 x1 hr1
  have hconc1 : countP isConnAttempt (executeCommand o1 st cmd1 (some h) env1).2.2 = 1 := by
    rw [hcall1, hcc1.1]
    simp [countP, isConnAttempt]
  have hconc2 : (mapGet (executeCommand o1 st cmd1 (some h) env1).2.1.sessions h).map
      Session.clientId = some (some st.nextClientId) := by
    rw [hcall1]
    exact hcc1.2
  have hclosed1 := executeRemoteOn_closed o1
      { st with
          sessions := mapSet st.sessions h
                        { clientId := some st.nextClientId, hasConnection := true,
                          timeout := none,
                          host := some (jsOrStr o1.connectO.cfg.hostname h),
                          env := none },
          nextClientId := st.nextClientId + 1 }
      h h cmd1 env1
      [Event.readKey (jsOrStr o1.connectO.cfg.identityFile defaultKeyPath),
       Event.connAttempt (jsOrStr o1.connectO.cfg.hostname h) st.nextClientId]
      { clientId := some st.nextClientId, hasConnection := true, timeout := none,
        host := some (jsOrStr o1.connectO.cfg.hostname h), env := none }
      st.nextClientId
      (mapGet_mapSet_self st.sessions h _) rfl chunks1 eb1 x1 hr1
  have hcoreF : (mapGet (executeCommand o1 st cmd1 (some h) env1).2.1.sessions h).map
      sessionCore = some (sessionCore
        { clientId := some st.nextClientId, hasConnection := true, timeout := none,
          host := some (jsOrStr o1.connectO.cfg.hostname h), env := none }) := by
    rw [hcall1, hclosed1]
    rw [show (((.ok { stdout := String.join chunks1, stderr := eb1 } :
        Except String CmdResult), _, _) : Except String CmdResult × ExecutorState × List Event).2.1
        = _ from rfl]
    rw [execState_core, mapGet_mapSet_self]
    rfl
  rcases hF : mapGet (executeCommand o1 st cmd1 (some h) env1).2.1.sessions h with - | s2
  · rw [hF] at hcoreF
    cases hcoreF
  · rw [hF] at hcoreF
    simp only [Option.map_some'] at hcoreF
    have hfields := core_eq_fields (Option.some.inj hcoreF)
    have hc2 : s2.clientId = some st.nextClientId := by rw [hfields.1]
    have hconn2 : s2.hasConnection = true := by rw [hfields.2.1]
    have hhost2 : s2.host = some (jsOrStr o1.connectO.cfg.hostname h) := by
      rw [hfields.2.2.1]
    by_cases hah : jsOrStr o1.connectO.cfg.hostname h = h
    · have hh2 : s2.host = some h := by rw [hhost2, hah]
      have hcall2 : executeCommand o2 (executeCommand o1 st cmd1 (some h) env1).2.1
          cmd2 (some h) env2 =
          executeRemoteOn o2 (executeCommand o1 st cmd1 (some h) env1).2.1
            h h cmd2 env2 [Event.probe st.nextClientId] := by
        rw [executeCommand_some o2 _ cmd2 h env2 hne,
          executeRemote_alive o2 _ cmd2 h env2 s2 st.nextClientId hne hF hh2 hc2 hp]
      have hcc2 := executeRemoteOn_closed_conclusions o2
          (executeCommand o1 st cmd1 (some h) env1).2.1 h cmd2 env2
          [Event.probe st.nextClientId] s2 st.nextClientId hF hc2 chunks2 eb2 x2 hr2
      refine ⟨hconc1, by simp [hc2], ?_, ?_⟩
      · rw [hcall2, hcc2.1]
        simp [countP, isConnAttempt]
      · rw [hcall2]
        exact hcc2.2
    · have hh2 : s2.host ≠ some h := by
        rw [hhost2]
        intro hcon
        exact hah (Option.some.inj hcon)
      have hcr := connect_reuse o2.connectO (executeCommand o1 st cmd1 (some h) env1).2.1
          h s2 (by rw [hkey]; exact hF) hconn2 (by rw [hc2]; rfl) hl
      have hcall2 : executeCommand o2 (executeCommand o1 st cmd1 (some h) env1).2.1
          cmd2 (some h) env2 =
          executeRemoteOn o2 (executeCommand o1 st cmd1 (some h) env1).2.1
            h h cmd2 env2 [] := by
        rw [executeCommand_some o2 _ cmd2 h env2 hne,
          executeRemote_hostMismatch o2 _ cmd2 h env2 s2 hne hF hh2, hcr]
      have hcc2 := executeRemoteOn_closed_conclusions o2
          (executeCommand o1 st cmd1 (some h) env1).2.1 h cmd2 env2
          [] s2 st.nextClientId hF hc2 chunks2 eb2 x2 hr2
      refine ⟨hconc1, by simp [hc2], ?_, ?_⟩
      · rw [hcall2, hcc2.1]
        rfl
      · rw [hcall2]
        exact hcc2.2

/-- C3 witness: two executions against alias `"web"` on a fresh executor,
with the SSH config resolving the alias to `203.0.113.9` (so the second
call takes the host-mismatch branch and still performs no new attempt). -/
theorem c3_witness :
    countP isConnAttempt
      (executeCommand c3Oracle emptyState "uname" (some "web") []).2.2 = 1 ∧
    (mapGet (executeCommand c3Oracle emptyState "uname" (some "web") []).2.1.sessions
        "web").map Session.clientId = some (some emptyState.nextClientId) ∧
    countP isConnAttempt
      (executeCommand c3Oracle (executeCommand c3Oracle emptyState "uname"
        (some "web") []).2.1 "uptime" (some "web") []).2.2 = 0 ∧
    (mapGet (executeCommand c3Oracle (executeCommand c3Oracle emptyState "uname"
        (some "web") []).2.1 "uptime" (some "web") []).2.1.sessions "web").map
        Session.clientId = some (some emptyState.nextClientId) :=
  c3_connect_once_then_reuse emptyState "web" c3Oracle c3Oracle "uname" "uptime" [] []
    (by decide) (by decide) rfl rfl [] "" 0 rfl [] "" 0 rfl rfl rfl
